import Mathlib

/-!
Verification of the Kotlin/Native runtime logging core (formatter, filter,
dispatcher). The repository ships only the GoogleTest suite
`kotlin-native/runtime/src/main/cpp/LoggingTest.cpp`; the implementation
(`Logging.hpp` / `Logging.cpp`) is not part of the source tree, so the
definitions below are modelled from the specification document, with the
observable behavior pinned to the exact expectations of the test suite
(which is part of the source tree and therefore authoritative wherever the
two disagree).
-/

namespace logging

/-- Modelled from the spec: `logging::Level`, an ordered enumeration
Debug < Info < Warning < Error. Constructor names follow the C++ enum
(`kDebug`, `kInfo`, `kWarning`, `kError`). -/
inductive Level where
  | kDebug
  | kInfo
  | kWarning
  | kError
deriving DecidableEq, Repr

/-- Numeric rank of a level, realizing the order Debug < Info < Warning < Error. -/
def Level.toNat : Level → Nat
  | .kDebug => 0
  | .kInfo => 1
  | .kWarning => 2
  | .kError => 3

/-- Level comparison by rank (the spec: comparisons by order, not by name). -/
def Level.le (a b : Level) : Bool :=
  decide (a.toNat ≤ b.toNat)

/-- Modelled from the spec: render-side level-name table used by the
formatter: DEBUG, INFO, WARN, ERROR. -/
def Level.name : Level → String
  | .kDebug => "DEBUG"
  | .kInfo => "INFO"
  | .kWarning => "WARN"
  | .kError => "ERROR"

/-- A printf-style variadic argument, as passed to `FormatLogEntry`. -/
inductive FmtArg where
  | int (i : Int)
  | str (s : String)
deriving DecidableEq, Repr

/-- Modelled from the spec: printf-style expansion of a format template with
its argument list (`%d` for integers, `%s` for strings, `%%` for a literal
percent); mismatched directives fall back to literal copying, reflecting
that such calls are undefined behavior left to the caller. -/
def formatMsg : List Char → List FmtArg → List Char
  | [], _ => []
  | '%' :: 'd' :: rest, .int i :: args => (toString i).data ++ formatMsg rest args
  | '%' :: 's' :: rest, .str s :: args => s.data ++ formatMsg rest args
  | '%' :: '%' :: rest, args => '%' :: formatMsg rest args
  | c :: rest, args => c :: formatMsg rest args

/-- String-level wrapper around `formatMsg`: the rendered message text. -/
def vsnprintf (fmt : String) (args : List FmtArg) : String :=
  ⟨formatMsg fmt.data args⟩

/-- Comma-joining of the tag sequence in caller order, no trailing comma. -/
def joinTags : List String → String
  | [] => ""
  | [t] => t
  | t :: rest => t ++ "," ++ joinTags rest

/-- Auxiliary for relating `joinTags` to `String.intercalate`: the
separator-prefixed concatenation of a list of strings. -/
def sepJoinAux (sep : String) : List String → String
  | [] => ""
  | t :: rest => sep ++ t ++ sepJoinAux sep rest

/-- Modelled from the spec: the tag segment of a rendered entry — empty when
there are zero tags (no empty brackets), otherwise the bracketed
comma-joined list. -/
def tagPart (tags : List String) : String :=
  if tags.isEmpty then "" else "[" ++ joinTags tags ++ "]"

/-- Modelled from the spec: the untruncated rendered log entry
`"[" + LEVEL_NAME + "]" + TAGPART + " " + formatted_message`. -/
def fullEntry (level : Level) (tags : List String) (fmt : String) (args : List FmtArg) : String :=
  "[" ++ level.name ++ "]" ++ tagPart tags ++ " " ++ vsnprintf fmt args

/-- Modelled from the spec: `logging::internal::FormatLogEntry` — renders the
entry into a buffer of the given capacity, truncating to fit while keeping
one byte for the terminator (Logging.cpp is not in the source tree). -/
def FormatLogEntry (capacity : Nat) (level : Level) (tags : List String)
    (fmt : String) (args : List FmtArg) : String :=
  ⟨(fullEntry level tags fmt args).data.take (capacity - 1)⟩

/-- Splitting a character list at every occurrence of a separator; an empty
input yields one empty group, mirroring how a comma-separated grammar reads
the spec string. -/
def splitOnChar (sep : Char) : List Char → List (List Char)
  | [] => [[]]
  | c :: rest =>
    match splitOnChar sep rest, decide (c = sep) with
    | groups, true => [] :: groups
    | [], false => [[c]]
    | g :: gs, false => (c :: g) :: gs

/-- Modelled from the spec: the parse-side level-name table — lowercase
tokens `debug`, `info`, `warning`, `error`; anything else is unrecognized. -/
def parseLevelName (s : String) : Option Level :=
  if s = "debug" then some .kDebug
  else if s = "info" then some .kInfo
  else if s = "warning" then some .kWarning
  else if s = "error" then some .kError
  else none

/-- Modelled from the spec: parsing of one `tag=levelname` entry. Fails when
the `=` is missing (or duplicated), the tag is empty, or the level token is
empty or unrecognized. -/
def parseEntry (entry : List Char) : Option (String × Level) :=
  match splitOnChar '=' entry with
  | [tag, lvl] =>
    if tag.isEmpty then none
    else (parseLevelName ⟨lvl⟩).map (fun minLevel => (⟨tag⟩, minLevel))
  | _ => none

/-- Modelled from the spec: `logging::internal::LogFilter` — an immutable
mapping from tag to minimum level, kept as an association list. -/
structure LogFilter where
  rules : List (String × Level)
deriving DecidableEq, Repr

/-- Modelled from the spec: `logging::internal::CreateLogFilter` — parses a
comma-separated list of `tag=levelname` entries; the empty spec and any spec
with a malformed entry both collapse to the empty filter (all-or-nothing
parse). -/
def CreateLogFilter (spec : String) : LogFilter :=
  if spec.isEmpty then ⟨[]⟩
  else
    match (splitOnChar ',' spec.data).mapM parseEntry with
    | some rules => ⟨rules⟩
    | none => ⟨[]⟩

/-- Modelled from the spec: `LogFilter::Empty` — true iff the mapping has no
entries. -/
def LogFilter.Empty (f : LogFilter) : Bool :=
  f.rules.isEmpty

/-- Modelled from the spec: `LogFilter::Enabled`. An empty filter enables
everything. A non-empty filter enables a call iff some tag of the call is a
key of the mapping whose minimum level the call's level meets — the
disjunctive rule pinned by the truth table of `LoggingTest.LogFilter_EnableTwo`
(spec `"t1=info,t2=warning"` enables `(Info, {"t1","t2"})`, which a
conjunctive reading would reject). -/
def LogFilter.Enabled (f : LogFilter) (level : Level) (tags : List String) : Bool :=
  if f.rules.isEmpty then true
  else
    tags.any fun tag =>
      match f.rules.lookup tag with
      | some minLevel => minLevel.le level
      | none => false

/-- Follows the spec's words only (for comparison with `LogFilter.Enabled`,
which follows the tests): enablement as the conjunction over the call's tags
that are present in the mapping, false when none of them is. -/
def enabledConjSpec (f : LogFilter) (level : Level) (tags : List String) : Bool :=
  if f.rules.isEmpty then true
  else if tags.all (fun tag => (f.rules.lookup tag).isNone) then false
  else
    tags.all fun tag =>
      match f.rules.lookup tag with
      | some minLevel => minLevel.le level
      | none => true

/-- One invocation of the sink (`logging::internal::Logger::Log`): the level,
the tag sequence as passed at the call site, and the fully rendered text. -/
structure SinkCall where
  level : Level
  tags : List String
  text : String
deriving DecidableEq, Repr

/-- Modelled from the spec: the size of the dispatcher's internally-owned
scratch buffer (implementation-defined, bounded). -/
def logEntrySize : Nat := 1024

/-- Modelled from the spec: `logging::internal::Log`, the dispatcher. Returns
the sequence of sink invocations together with the number of formatting
operations performed: on the disabled path it returns immediately with
neither; when enabled it formats once and invokes the sink exactly once. -/
def Log (f : LogFilter) (level : Level) (tags : List String)
    (fmt : String) (args : List FmtArg) : List SinkCall × Nat :=
  if f.Enabled level tags then
    ([⟨level, tags, FormatLogEntry logEntrySize level tags fmt args⟩], 1)
  else
    ([], 0)

end logging

/-! ## Validation of the model against the test suite

The theorems in this section replay, verbatim, the expectations of
`LoggingTest.cpp` against the model, pinning the model to the behavior the
repository's own tests demand. -/

/-- The model reproduces every `LoggingTest.FormatLogEntry_*` expectation. -/
theorem model_matches_formatLogEntry_tests :
    logging.FormatLogEntry 1024 .kDebug ["t1"] "Log #%d" [.int 42] = "[DEBUG][t1] Log #42" ∧
    logging.FormatLogEntry 1024 .kDebug ["t1", "t2"] "Log #%d" [.int 42] = "[DEBUG][t1,t2] Log #42" ∧
    logging.FormatLogEntry 1024 .kInfo ["t1"] "Log #%d" [.int 42] = "[INFO][t1] Log #42" ∧
    logging.FormatLogEntry 1024 .kInfo ["t1", "t2"] "Log #%d" [.int 42] = "[INFO][t1,t2] Log #42" ∧
    logging.FormatLogEntry 1024 .kWarning ["t1"] "Log #%d" [.int 42] = "[WARN][t1] Log #42" ∧
    logging.FormatLogEntry 1024 .kWarning ["t1", "t2"] "Log #%d" [.int 42] = "[WARN][t1,t2] Log #42" ∧
    logging.FormatLogEntry 1024 .kError ["t1"] "Log #%d" [.int 42] = "[ERROR][t1] Log #42" ∧
    logging.FormatLogEntry 1024 .kError ["t1", "t2"] "Log #%d" [.int 42] = "[ERROR][t1,t2] Log #42" := by
  decide

/-- The model reproduces `LoggingTest.LogFilter_Empty` and
`LoggingTest.LogFilter_Broken` verbatim. -/
theorem model_matches_logFilter_empty_broken_tests :
    (logging.CreateLogFilter "").Empty = true ∧
    (logging.CreateLogFilter "t1").Empty = true ∧
    (logging.CreateLogFilter "t1=").Empty = true ∧
    (logging.CreateLogFilter "t1=oops").Empty = true ∧
    (logging.CreateLogFilter "t1=info,t2").Empty = true ∧
    (logging.CreateLogFilter "t1=info,t2=").Empty = true ∧
    (logging.CreateLogFilter "t1=info,t2=oops").Empty = true := by
  decide

/-- The model reproduces the full truth table of
`LoggingTest.LogFilter_EnableOne` verbatim. -/
theorem model_matches_logFilter_enableOne_test :
    (logging.CreateLogFilter "t1=info").Empty = false ∧
    (logging.CreateLogFilter "t1=info").Enabled .kDebug ["t1"] = false ∧
    (logging.CreateLogFilter "t1=info").Enabled .kInfo ["t1"] = true ∧
    (logging.CreateLogFilter "t1=info").Enabled .kWarning ["t1"] = true ∧
    (logging.CreateLogFilter "t1=info").Enabled .kError ["t1"] = true ∧
    (logging.CreateLogFilter "t1=info").Enabled .kDebug ["t2"] = false ∧
    (logging.CreateLogFilter "t1=info").Enabled .kInfo ["t2"] = false ∧
    (logging.CreateLogFilter "t1=info").Enabled .kWarning ["t2"] = false ∧
    (logging.CreateLogFilter "t1=info").Enabled .kError ["t2"] = false ∧
    (logging.CreateLogFilter "t1=info").Enabled .kDebug ["t1", "t2"] = false ∧
    (logging.CreateLogFilter "t1=info").Enabled .kInfo ["t1", "t2"] = true ∧
    (logging.CreateLogFilter "t1=info").Enabled .kWarning ["t1", "t2"] = true ∧
    (logging.CreateLogFilter "t1=info").Enabled .kError ["t1", "t2"] = true ∧
    (logging.CreateLogFilter "t1=info").Enabled .kDebug ["t2", "t1"] = false ∧
    (logging.CreateLogFilter "t1=info").Enabled .kInfo ["t2", "t1"] = true ∧
    (logging.CreateLogFilter "t1=info").Enabled .kWarning ["t2", "t1"] = true ∧
    (logging.CreateLogFilter "t1=info").Enabled .kError ["t2", "t1"] = true := by
  decide

/-- The model reproduces the full truth table of
`LoggingTest.LogFilter_EnableTwo` verbatim — including the expectation at
line 158 of the test file that `(Info, {"t1","t2"})` is enabled for spec
`"t1=info,t2=warning"`. -/
theorem model_matches_logFilter_enableTwo_test :
    (logging.CreateLogFilter "t1=info,t2=warning").Empty = false ∧
    (logging.CreateLogFilter "t1=info,t2=warning").Enabled .kDebug ["t1"] = false ∧
    (logging.CreateLogFilter "t1=info,t2=warning").Enabled .kInfo ["t1"] = true ∧
    (logging.CreateLogFilter "t1=info,t2=warning").Enabled .kWarning ["t1"] = true ∧
    (logging.CreateLogFilter "t1=info,t2=warning").Enabled .kError ["t1"] = true ∧
    (logging.CreateLogFilter "t1=info,t2=warning").Enabled .kDebug ["t2"] = false ∧
    (logging.CreateLogFilter "t1=info,t2=warning").Enabled .kInfo ["t2"] = false ∧
    (logging.CreateLogFilter "t1=info,t2=warning").Enabled .kWarning ["t2"] = true ∧
    (logging.CreateLogFilter "t1=info,t2=warning").Enabled .kError ["t2"] = true ∧
    (logging.CreateLogFilter "t1=info,t2=warning").Enabled .kDebug ["t1", "t2"] = false ∧
    (logging.CreateLogFilter "t1=info,t2=warning").Enabled .kInfo ["t1", "t2"] = true ∧
    (logging.CreateLogFilter "t1=info,t2=warning").Enabled .kWarning ["t1", "t2"] = true ∧
    (logging.CreateLogFilter "t1=info,t2=warning").Enabled .kError ["t1", "t2"] = true ∧
    (logging.CreateLogFilter "t1=info,t2=warning").Enabled .kDebug ["t2", "t1"] = false ∧
    (logging.CreateLogFilter "t1=info,t2=warning").Enabled .kInfo ["t2", "t1"] = true ∧
    (logging.CreateLogFilter "t1=info,t2=warning").Enabled .kWarning ["t2", "t1"] = true ∧
    (logging.CreateLogFilter "t1=info,t2=warning").Enabled .kError ["t2", "t1"] = true := by
  decide

/-! ## Claim theorems -/

/-- C7: the render-side and parse-side level-name tables are independent and
asymmetric — the formatter renders Warning as "WARN" (never "WARNING"),
while the filter parser accepts "warning" and rejects "warn" as the token
for Level::Warning. -/
theorem render_parse_level_tables_asymmetric :
    logging.Level.name .kWarning = "WARN" ∧
    logging.Level.name .kWarning ≠ "WARNING" ∧
    logging.parseLevelName "warning" = some .kWarning ∧
    logging.parseLevelName "warn" = none := by
  decide

/-- C9: a filter whose `Empty()` is true enables every (level, tags) query —
a missing or misconfigured filter degrades to default-enabled logging. -/
theorem empty_filter_enables_everything (f : logging.LogFilter)
    (h : f.Empty = true) (level : logging.Level) (tags : List String) :
    f.Enabled level tags = true := by
  unfold logging.LogFilter.Empty at h
  unfold logging.LogFilter.Enabled
  simp [h]

/-- Witness for C9 at the malformed spec "t1=oops" and a query the filter
knows nothing about. -/
theorem empty_filter_enables_everything_witness :
    (logging.CreateLogFilter "t1=oops").Empty = true ∧
    (logging.CreateLogFilter "t1=oops").Enabled .kDebug ["x"] = true :=
  ⟨by decide,
    empty_filter_enables_everything (logging.CreateLogFilter "t1=oops") (by decide) .kDebug ["x"]⟩

/-- C5: a non-empty filter suppresses every query supplying tags none of
which appear as keys in its mapping, at every level. -/
theorem unknown_tags_suppressed (f : logging.LogFilter) (level : logging.Level)
    (tags : List String) (hne : f.Empty = false) (_htags : tags ≠ [])
    (hnone : ∀ tag ∈ tags, f.rules.lookup tag = none) :
    f.Enabled level tags = false := by
  unfold logging.LogFilter.Empty at hne
  unfold logging.LogFilter.Enabled
  simp only [hne, Bool.false_eq_true, if_false, List.any_eq_false]
  intro tag htag
  simp [hnone tag htag]

/-- Witness for C5: spec "t1=info", query tag "t2" at Error. -/
theorem unknown_tags_suppressed_witness :
    (logging.CreateLogFilter "t1=info").Empty = false ∧
    (["t2"] : List String) ≠ [] ∧
    (∀ tag ∈ (["t2"] : List String), (logging.CreateLogFilter "t1=info").rules.lookup tag = none) ∧
    (logging.CreateLogFilter "t1=info").Enabled .kError ["t2"] = false :=
  ⟨by decide, by decide, by decide,
    unknown_tags_suppressed (logging.CreateLogFilter "t1=info") .kError ["t2"]
      (by decide) (by decide) (by decide)⟩

/-- C3: on a disabled call the dispatcher performs no sink invocation and no
formatting at all. -/
theorem log_disabled_no_sink_no_format (f : logging.LogFilter) (level : logging.Level)
    (tags : List String) (fmt : String) (args : List logging.FmtArg)
    (h : f.Enabled level tags = false) :
    logging.Log f level tags fmt args = ([], 0) := by
  unfold logging.Log
  simp [h]

/-- Witness for C3: spec "t1=info" disables the query ("t2" at Info), and the
dispatcher emits nothing and formats nothing. -/
theorem log_disabled_no_sink_no_format_witness :
    (logging.CreateLogFilter "t1=info").Enabled .kInfo ["t2"] = false ∧
    logging.Log (logging.CreateLogFilter "t1=info") .kInfo ["t2"] "Message %d" [.int 42] = ([], 0) :=
  ⟨by decide,
    log_disabled_no_sink_no_format (logging.CreateLogFilter "t1=info") .kInfo ["t2"]
      "Message %d" [.int 42] (by decide)⟩

/-- C2: on an enabled call the dispatcher invokes the sink exactly once,
with the same level, the tags in call-site order, and the text rendered by
the formatter for those inputs. -/
theorem log_enabled_sink_once (f : logging.LogFilter) (level : logging.Level)
    (tags : List String) (fmt : String) (args : List logging.FmtArg)
    (h : f.Enabled level tags = true) :
    (logging.Log f level tags fmt args).1 =
      [⟨level, tags, logging.FormatLogEntry logging.logEntrySize level tags fmt args⟩] := by
  unfold logging.Log
  simp [h]

/-- Witness for C2 at the test's inputs: level Info, tags ("t1","t2"),
format "Message %d", argument 42 — the sink receives exactly one call with
text "[INFO][t1,t2] Message 42". -/
theorem log_enabled_sink_once_witness :
    (logging.CreateLogFilter "").Enabled .kInfo ["t1", "t2"] = true ∧
    (logging.Log (logging.CreateLogFilter "") .kInfo ["t1", "t2"] "Message %d" [.int 42]).1 =
      [⟨.kInfo, ["t1", "t2"], "[INFO][t1,t2] Message 42"⟩] := by
  refine ⟨by decide, ?_⟩
  rw [log_enabled_sink_once (logging.CreateLogFilter "") .kInfo ["t1", "t2"]
    "Message %d" [.int 42] (by decide)]
  decide

/-- If any element of a list fails under an `Option`-valued map, the whole
`mapM` fails: the formal core of the all-or-nothing parse. -/
theorem mapM_eq_none_of_mem {α β : Type} (f : α → Option β) :
    ∀ (l : List α) (a : α), a ∈ l → f a = none → l.mapM f = none := by
  intro l
  induction l with
  | nil => intro a ha; cases ha
  | cons x xs ih =>
    intro a ha hfa
    rw [List.mapM_cons]
    cases hx : f x with
    | none => rfl
    | some b =>
      cases ha with
      | head => rw [hx] at hfa; cases hfa
      | tail _ hmem =>
        rw [ih a hmem hfa]
        rfl

/-- C4: parsing is all-or-nothing — a spec containing any malformed entry
(one that `parseEntry` rejects: missing `=`, empty tag, empty or
unrecognized level token) collapses the entire filter to Empty, as does the
empty spec and each spec of `LoggingTest.LogFilter_Broken`; a fully valid
non-empty spec such as "t1=info" yields a non-Empty filter. -/
theorem parse_all_or_nothing :
    (∀ spec : String, (∃ e ∈ logging.splitOnChar ',' spec.data, logging.parseEntry e = none) →
      (logging.CreateLogFilter spec).Empty = true) ∧
    (logging.CreateLogFilter "").Empty = true ∧
    (logging.CreateLogFilter "t1").Empty = true ∧
    (logging.CreateLogFilter "t1=").Empty = true ∧
    (logging.CreateLogFilter "t1=oops").Empty = true ∧
    (logging.CreateLogFilter "t1=info,t2").Empty = true ∧
    (logging.CreateLogFilter "t1=info,t2=").Empty = true ∧
    (logging.CreateLogFilter "t1=info,t2=oops").Empty = true ∧
    (logging.CreateLogFilter "t1=info").Empty = false := by
  refine ⟨?_, by decide, by decide, by decide, by decide, by decide, by decide, by decide, by decide⟩
  rintro spec ⟨e, he, hpe⟩
  unfold logging.CreateLogFilter
  cases hempty : spec.isEmpty with
  | true => simp [hempty, logging.LogFilter.Empty]
  | false =>
    simp only [hempty, Bool.false_eq_true, if_false]
    rw [mapM_eq_none_of_mem logging.parseEntry _ e he hpe]
    rfl

/-- Witness for C4's universal part: the spec "t1=info,t2" contains the entry
"t2" which `parseEntry` rejects, so the whole filter is Empty. -/
theorem parse_all_or_nothing_witness :
    (∃ e ∈ logging.splitOnChar ',' "t1=info,t2".data, logging.parseEntry e = none) ∧
    (logging.CreateLogFilter "t1=info,t2").Empty = true :=
  ⟨⟨['t', '2'], by decide, by decide⟩,
    parse_all_or_nothing.1 "t1=info,t2" ⟨['t', '2'], by decide, by decide⟩⟩

/-- C8: `Enabled` is invariant under permutation of the query's tag list,
for every filter and level. -/
theorem enabled_perm_invariant (f : logging.LogFilter) (level : logging.Level)
    (tags1 tags2 : List String) (h : tags1.Perm tags2) :
    f.Enabled level tags1 = f.Enabled level tags2 := by
  unfold logging.LogFilter.Enabled
  cases he : f.rules.isEmpty with
  | true => simp
  | false =>
    simp only [Bool.false_eq_true, if_false]
    apply Bool.eq_iff_iff.mpr
    simp only [List.any_eq_true]
    constructor
    · rintro ⟨tag, htag, hp⟩
      exact ⟨tag, h.mem_iff.mp htag, hp⟩
    · rintro ⟨tag, htag, hp⟩
      exact ⟨tag, h.mem_iff.mpr htag, hp⟩

/-- Witness for C8: swapping the two tags of the test query leaves the
result unchanged for the filter "t1=info". -/
theorem enabled_perm_invariant_witness :
    (["t1", "t2"] : List String).Perm ["t2", "t1"] ∧
    (logging.CreateLogFilter "t1=info").Enabled .kInfo ["t1", "t2"] =
      (logging.CreateLogFilter "t1=info").Enabled .kInfo ["t2", "t1"] :=
  ⟨List.Perm.swap "t2" "t1" [],
    enabled_perm_invariant (logging.CreateLogFilter "t1=info") .kInfo
      ["t1", "t2"] ["t2", "t1"] (List.Perm.swap "t2" "t1" [])⟩

/-- C1 counterexample: for spec "t1=info,t2=warning" the filter enables
(Info, {"t1","t2"}) even though "t2" is a known tag whose minimum level
Warning is not met by Info — so `Enabled` is not the conjunction over known
tags that the spec describes (the spec-words predicate `enabledConjSpec`
yields false here while the code, pinned by the test at
LoggingTest.cpp:158, yields true). -/
theorem enabled_conjunction_counterexample :
    (logging.CreateLogFilter "t1=info,t2=warning").Enabled .kInfo ["t1", "t2"] = true ∧
    (logging.CreateLogFilter "t1=info,t2=warning").rules.lookup "t2" = some .kWarning ∧
    logging.Level.le .kWarning .kInfo = false ∧
    logging.enabledConjSpec (logging.CreateLogFilter "t1=info,t2=warning") .kInfo ["t1", "t2"] = false := by
  decide

/-- C1 (amended): for every non-empty filter and every query, `Enabled` is
the disjunction over the query's tags that appear as keys in the mapping —
it returns true iff some tag of the query has a rule whose minimum level the
query's level meets; for "t1=info,t2=warning" this makes (Info,{"t1","t2"})
enabled through t1 alone. -/
theorem enabled_disjunction_over_known_tags (f : logging.LogFilter)
    (level : logging.Level) (tags : List String) (h : f.Empty = false) :
    (f.Enabled level tags = true ↔
      ∃ tag ∈ tags, ∃ minLevel, f.rules.lookup tag = some minLevel ∧
        minLevel.le level = true) := by
  unfold logging.LogFilter.Empty at h
  unfold logging.LogFilter.Enabled
  simp only [h, Bool.false_eq_true, if_false, List.any_eq_true]
  constructor
  · rintro ⟨tag, htag, hp⟩
    cases hl : f.rules.lookup tag with
    | none => rw [hl] at hp; cases hp
    | some minLevel => rw [hl] at hp; exact ⟨tag, htag, minLevel, hl, hp⟩
  · rintro ⟨tag, htag, minLevel, hl, hle⟩
    refine ⟨tag, htag, ?_⟩
    rw [hl]
    exact hle

/-- Witness for the amended C1 at the counterexample's own input: the filter
"t1=info,t2=warning" is non-empty and enables (Info, {"t1","t2"}) via the
rule for t1. -/
theorem enabled_disjunction_over_known_tags_witness :
    (logging.CreateLogFilter "t1=info,t2=warning").Empty = false ∧
    (logging.CreateLogFilter "t1=info,t2=warning").Enabled .kInfo ["t1", "t2"] = true :=
  ⟨by decide,
    (enabled_disjunction_over_known_tags (logging.CreateLogFilter "t1=info,t2=warning")
        .kInfo ["t1", "t2"] (by decide)).mpr
      ⟨"t1", by decide, .kInfo, by decide, by decide⟩⟩

/-- C10: for every filter built from a spec string, when the resulting
mapping is non-empty, `Enabled(level, tags)` equals the existential test
"some tag of the query is a key of the mapping and the level meets its
minimum" computed over the query; together with the concrete fact that
"t1=info,t2=warning" enables (Info, {"t1","t2"}) although Info is below
t2's threshold. -/
theorem enabled_existential_rule :
    (∀ (spec : String) (level : logging.Level) (tags : List String),
      (logging.CreateLogFilter spec).Empty = false →
      (logging.CreateLogFilter spec).Enabled level tags =
        tags.any (fun tag =>
          match (logging.CreateLogFilter spec).rules.lookup tag with
          | some minLevel => minLevel.le level
          | none => false)) ∧
    (logging.CreateLogFilter "t1=info,t2=warning").Enabled .kInfo ["t1", "t2"] = true ∧
    logging.Level.le .kWarning .kInfo = false := by
  refine ⟨?_, by decide, by decide⟩
  intro spec level tags h
  unfold logging.LogFilter.Empty at h
  unfold logging.LogFilter.Enabled
  rw [h]
  rfl

/-- Witness for C10's universal part at spec "t1=info,t2=warning", level
Info, tags ("t1","t2"). -/
theorem enabled_existential_rule_witness :
    (logging.CreateLogFilter "t1=info,t2=warning").Empty = false ∧
    (logging.CreateLogFilter "t1=info,t2=warning").Enabled .kInfo ["t1", "t2"] =
      (["t1", "t2"] : List String).any (fun tag =>
        match (logging.CreateLogFilter "t1=info,t2=warning").rules.lookup tag with
        | some minLevel => minLevel.le .kInfo
        | none => false) :=
  ⟨by decide,
    enabled_existential_rule.1 "t1=info,t2=warning" .kInfo ["t1", "t2"] (by decide)⟩

/-- The accumulator-passing loop of `String.intercalate` appends the
separator-prefixed join of the remaining strings to the accumulator. -/
theorem intercalate_go_eq (sep : String) :
    ∀ (l : List String) (acc : String),
      String.intercalate.go acc sep l = acc ++ logging.sepJoinAux sep l := by
  intro l
  induction l with
  | nil =>
    intro acc
    simp [String.intercalate.go, logging.sepJoinAux]
  | cons t rest ih =>
    intro acc
    rw [String.intercalate.go, ih, logging.sepJoinAux]
    simp [String.append_assoc]

/-- The formatter's comma-joining of tags coincides with
`String.intercalate ","`. -/
theorem joinTags_eq_intercalate :
    ∀ tags : List String, logging.joinTags tags = String.intercalate "," tags := by
  have haux : ∀ (rest : List String) (t : String),
      logging.joinTags (t :: rest) = t ++ logging.sepJoinAux "," rest := by
    intro rest
    induction rest with
    | nil => intro t; simp [logging.joinTags, logging.sepJoinAux]
    | cons r rs ih =>
      intro t
      rw [show logging.joinTags (t :: r :: rs) = t ++ "," ++ logging.joinTags (r :: rs) from rfl,
        ih r, logging.sepJoinAux]
      simp [String.append_assoc]
  intro tags
  cases tags with
  | nil => rfl
  | cons t rest =>
    rw [String.intercalate, intercalate_go_eq, haux rest t]

/-- C6: whenever the buffer has room for the whole entry, `FormatLogEntry`
writes exactly "[" + NAME(L) + "]", then the bracketed comma-joined tag list
in caller order (omitted entirely when there are no tags), then a single
space, then the printf-expanded message — with NAME mapping Debug to
"DEBUG", Info to "INFO", Warning to "WARN" and Error to "ERROR". -/
theorem format_layout (capacity : Nat) (level : logging.Level) (tags : List String)
    (fmt : String) (args : List logging.FmtArg)
    (h : (logging.fullEntry level tags fmt args).data.length < capacity) :
    logging.FormatLogEntry capacity level tags fmt args =
      "[" ++ level.name ++ "]" ++
        (if tags = [] then "" else "[" ++ String.intercalate "," tags ++ "]") ++
        " " ++ logging.vsnprintf fmt args ∧
    logging.Level.name .kDebug = "DEBUG" ∧
    logging.Level.name .kInfo = "INFO" ∧
    logging.Level.name .kWarning = "WARN" ∧
    logging.Level.name .kError = "ERROR" := by
  refine ⟨?_, rfl, rfl, rfl, rfl⟩
  unfold logging.FormatLogEntry
  rw [List.take_of_length_le
    (show (logging.fullEntry level tags fmt args).data.length ≤ capacity - 1 by omega)]
  show logging.fullEntry level tags fmt args = _
  unfold logging.fullEntry logging.tagPart
  rw [← joinTags_eq_intercalate]
  cases tags with
  | nil => rfl
  | cons t rest => simp

/-- Witness for C6 at the test's inputs: level Info, tags ("t1","t2"),
format "Message %d", argument 42, buffer capacity 1024. -/
theorem format_layout_witness :
    (logging.fullEntry .kInfo ["t1", "t2"] "Message %d" [.int 42]).data.length < 1024 ∧
    logging.FormatLogEntry 1024 .kInfo ["t1", "t2"] "Message %d" [.int 42] =
      "[" ++ logging.Level.name .kInfo ++ "]" ++
        (if (["t1", "t2"] : List String) = [] then ""
          else "[" ++ String.intercalate "," ["t1", "t2"] ++ "]") ++
        " " ++ logging.vsnprintf "Message %d" [.int 42] :=
  ⟨by decide,
    (format_layout 1024 .kInfo ["t1", "t2"] "Message %d" [.int 42] (by decide)).1⟩
